import Mathlib

/-!
Verification development for the Webflow MCP server (src/index.ts).

The source is a single TypeScript file exposing eight tools over an MCP
stdio transport.  We shallowly embed the parts of the program the claims
are about:

* a JSON value type (`Json`) and JavaScript-object semantics for key
  lookup, key assignment and spread (insertion order, last write wins);
* the slug derivation `name.toLowerCase().replace(/[^a-z0-9]+/g, '-')`
  (ASCII model of `toLowerCase`, which coincides with JavaScript on the
  ASCII inputs the claims use);
* the zod schemas (`GetSiteSchema`, `CreateCollectionItemSchema`, ...)
  as parse functions that, like zod, validate every field and collect
  all issues (path + message, with zod's wording for the cases that
  arise: "Required", "Expected <t>, received <u>");
* the `WebflowAPI` adapter class: each method builds one `HttpRequest`
  (url, method, headers, JSON body); `makeRequest` checks
  `response.ok` (status 200..299) and on failure throws
  `Webflow API error (<status>): <body text>`;
* the call-tool request handler: the switch over tool names inside a
  try block (`callToolInner`, whose `Thrown` outcomes mirror what the
  try body can throw: a `ZodError`, the `McpError` of the default case,
  or a generic `Error` from the adapter), followed by the catch block
  (`handleCallTool`) that classifies the thrown value.

JavaScript numbers are modelled as `Int`: the only numeric values the
program manipulates are the `limit`/`offset` parameters, which are
integral in every claim, and `${n}` string interpolation agrees with
`toString` on integers.  The HTTP world is a function from requests to
responses; a response carries its status, its body as text (what
`response.text()` yields) and its body as JSON (what `response.json()`
yields), so that the error path's "read as text" is visible.

The `McpError` message format `MCP error <code>: <message>` and the
JSON-RPC code numbers (-32601 method not found, -32602 invalid params,
-32603 internal error) follow the MCP SDK, which the repo uses as an
external collaborator.
-/

/-- JSON values.  Objects are ordered association lists, as in
JavaScript; keys are unique in every object the program builds. -/
inductive Json where
  | null : Json
  | bool : Bool → Json
  | num : Int → Json
  | str : String → Json
  | arr : List Json → Json
  | obj : List (String × Json) → Json

/-- zod's name for the runtime type of a value (used in its
"Expected string, received number" messages). -/
def Json.typeName : Json → String
  | .null => "null"
  | .bool _ => "boolean"
  | .num _ => "number"
  | .str _ => "string"
  | .arr _ => "array"
  | .obj _ => "object"

/-- A JavaScript object with values of type `α`, in insertion order. -/
abbrev JsAList (α : Type) := List (String × α)

/-- JSON object shorthand. -/
abbrev JObj := JsAList Json

/-- Property read `o[k]`: first (with unique keys, only) binding. -/
def getKey {α : Type} : JsAList α → String → Option α
  | [], _ => none
  | (k', v) :: rest, k => if k' = k then some v else getKey rest k

/-- Property write `o[k] = v`: overwrite in place if the key exists,
else append — JavaScript object-literal/assignment semantics. -/
def setKey {α : Type} : JsAList α → String → α → JsAList α
  | [], k, v => [(k, v)]
  | (k', v') :: rest, k, v =>
    if k' = k then (k, v) :: rest else (k', v') :: setKey rest k v

/-- Spread `{...target, ...source}`: each key of `source`, in order, is
assigned over `target`, so later writes win. -/
def spreadA {α : Type} (target source : JsAList α) : JsAList α :=
  source.foldl (fun acc kv => setKey acc kv.1 kv.2) target

/-- Characters the regex class `[a-z0-9]` accepts. -/
def isSlugChar (c : Char) : Bool :=
  ('a' ≤ c && c ≤ 'z') || ('0' ≤ c && c ≤ '9')

/-- `replace(/[^a-z0-9]+/g, '-')` on a character list: each maximal run
of non-matching characters becomes a single hyphen.  The flag records
whether we are inside such a run. -/
def collapseNonAlnum : List Char → Bool → List Char
  | [], _ => []
  | c :: cs, inRun =>
    if isSlugChar c then c :: collapseNonAlnum cs false
    else if inRun then collapseNonAlnum cs true
    else '-' :: collapseNonAlnum cs true

/-- `toLowerCase()` (ASCII model, exact on the program's inputs):
each character is lowercased independently. -/
def jsToLower (s : String) : String := String.mk (s.data.map Char.toLower)

/-- `name.toLowerCase().replace(/[^a-z0-9]+/g, '-')` — the auto-derived
slug of `create_collection_item`. -/
def slugify (name : String) : String :=
  String.mk (collapseNonAlnum (jsToLower name).data false)

/-- `slug || name.toLowerCase().replace(...)`: JavaScript `||` takes the
derived slug when `slug` is `undefined` or the (falsy) empty string. -/
def slugOrDerived (slug : Option String) (name : String) : String :=
  match slug with
  | some s => if s = "" then slugify name else s
  | none => slugify name

/-- One zod issue: a field path and zod's message for the violation. -/
structure ZodIssue where
  path : List String
  message : String

/-- zod validates every field of an object schema and reports all
issues together; this combines two field results accordingly. -/
def zcombine {α β : Type} :
    Except (List ZodIssue) α → Except (List ZodIssue) β →
    Except (List ZodIssue) (α × β)
  | .ok a, .ok b => .ok (a, b)
  | .error e1, .error e2 => .error (e1 ++ e2)
  | .error e1, .ok _ => .error e1
  | .ok _, .error e2 => .error e2

/-- `z.string()` at required key `key`. -/
def checkReqString (o : JObj) (key : String) : Except (List ZodIssue) String :=
  match getKey o key with
  | none => .error [⟨[key], "Required"⟩]
  | some (.str s) => .ok s
  | some v => .error [⟨[key], "Expected string, received " ++ v.typeName⟩]

/-- `z.string().optional()` at key `key`. -/
def checkOptString (o : JObj) (key : String) : Except (List ZodIssue) (Option String) :=
  match getKey o key with
  | none => .ok none
  | some (.str s) => .ok (some s)
  | some v => .error [⟨[key], "Expected string, received " ++ v.typeName⟩]

/-- `z.boolean().optional()` at key `key`. -/
def checkOptBool (o : JObj) (key : String) : Except (List ZodIssue) (Option Bool) :=
  match getKey o key with
  | none => .ok none
  | some (.bool b) => .ok (some b)
  | some v => .error [⟨[key], "Expected boolean, received " ++ v.typeName⟩]

/-- `z.boolean().optional().default(d)` at key `key`. -/
def checkBoolDefault (o : JObj) (key : String) (d : Bool) : Except (List ZodIssue) Bool :=
  match getKey o key with
  | none => .ok d
  | some (.bool b) => .ok b
  | some v => .error [⟨[key], "Expected boolean, received " ++ v.typeName⟩]

/-- `z.number().optional().default(d)` at key `key`. -/
def checkNumDefault (o : JObj) (key : String) (d : Int) : Except (List ZodIssue) Int :=
  match getKey o key with
  | none => .ok d
  | some (.num n) => .ok n
  | some v => .error [⟨[key], "Expected number, received " ++ v.typeName⟩]

/-- `z.record(z.any()).optional()` at key `key`. -/
def checkRecord (o : JObj) (key : String) : Except (List ZodIssue) (Option JObj) :=
  match getKey o key with
  | none => .ok none
  | some (.obj fields) => .ok (some fields)
  | some v => .error [⟨[key], "Expected object, received " ++ v.typeName⟩]

/-- Elements of `z.array(z.string())`, indexed from `i` for paths. -/
def checkStrElems (key : String) : Nat → List Json → Except (List ZodIssue) (List String)
  | _, [] => .ok []
  | i, x :: xs =>
    let head : Except (List ZodIssue) String :=
      match x with
      | .str s => .ok s
      | v => .error [⟨[key, toString i], "Expected string, received " ++ v.typeName⟩]
    match zcombine head (checkStrElems key (i + 1) xs) with
    | .error es => .error es
    | .ok (s, ss) => .ok (s :: ss)

/-- `z.array(z.string())` at required key `key`. -/
def checkStringArray (o : JObj) (key : String) : Except (List ZodIssue) (List String) :=
  match getKey o key with
  | none => .error [⟨[key], "Required"⟩]
  | some (.arr xs) => checkStrElems key 0 xs
  | some v => .error [⟨[key], "Expected array, received " ++ v.typeName⟩]

/-- Output of `GetSiteSchema` (and `GetCollectionsSchema`). -/
structure GetSiteParams where
  siteId : String

/-- Output of `GetCollectionItemsSchema` after defaulting. -/
structure ItemsParams where
  collectionId : String
  limit : Int
  offset : Int

/-- Output of `CreateCollectionItemSchema` after defaulting. -/
structure CreateParams where
  collectionId : String
  name : String
  slug : Option String
  fieldData : Option JObj
  isDraft : Bool
  isArchived : Bool

/-- Output of `UpdateCollectionItemSchema` (no defaults). -/
structure UpdateParams where
  collectionId : String
  itemId : String
  name : Option String
  slug : Option String
  fieldData : Option JObj
  isDraft : Option Bool
  isArchived : Option Bool

/-- Output of `DeleteCollectionItemSchema`. -/
structure DeleteParams where
  collectionId : String
  itemId : String

/-- Output of the inline publish schema. -/
structure PublishParams where
  collectionId : String
  itemIds : List String

/-- `GetSiteSchema.parse` (z.object fails with "Required" on undefined
arguments, as zod does). -/
def GetSiteSchema.parse (args : Option JObj) : Except (List ZodIssue) GetSiteParams :=
  match args with
  | none => .error [⟨[], "Required"⟩]
  | some o =>
    match checkReqString o "siteId" with
    | .error es => .error es
    | .ok s => .ok ⟨s⟩

/-- `GetCollectionsSchema.parse` — same shape as `GetSiteSchema`. -/
def GetCollectionsSchema.parse (args : Option JObj) : Except (List ZodIssue) GetSiteParams :=
  GetSiteSchema.parse args

/-- `GetCollectionItemsSchema.parse`. -/
def GetCollectionItemsSchema.parse (args : Option JObj) : Except (List ZodIssue) ItemsParams :=
  match args with
  | none => .error [⟨[], "Required"⟩]
  | some o =>
    match zcombine (checkReqString o "collectionId")
        (zcombine (checkNumDefault o "limit" 10) (checkNumDefault o "offset" 0)) with
    | .error es => .error es
    | .ok (cid, l, off) => .ok ⟨cid, l, off⟩

/-- `CreateCollectionItemSchema.parse`. -/
def CreateCollectionItemSchema.parse (args : Option JObj) : Except (List ZodIssue) CreateParams :=
  match args with
  | none => .error [⟨[], "Required"⟩]
  | some o =>
    match zcombine (checkReqString o "collectionId")
        (zcombine (checkReqString o "name")
        (zcombine (checkOptString o "slug")
        (zcombine (checkRecord o "fieldData")
        (zcombine (checkBoolDefault o "isDraft" false)
                  (checkBoolDefault o "isArchived" false))))) with
    | .error es => .error es
    | .ok (cid, nm, sl, fd, d, a) => .ok ⟨cid, nm, sl, fd, d, a⟩

/-- `UpdateCollectionItemSchema.parse`. -/
def UpdateCollectionItemSchema.parse (args : Option JObj) : Except (List ZodIssue) UpdateParams :=
  match args with
  | none => .error [⟨[], "Required"⟩]
  | some o =>
    match zcombine (checkReqString o "collectionId")
        (zcombine (checkReqString o "itemId")
        (zcombine (checkOptString o "name")
        (zcombine (checkOptString o "slug")
        (zcombine (checkRecord o "fieldData")
        (zcombine (checkOptBool o "isDraft")
                  (checkOptBool o "isArchived")))))) with
    | .error es => .error es
    | .ok (cid, iid, nm, sl, fd, d, a) => .ok ⟨cid, iid, nm, sl, fd, d, a⟩

/-- `DeleteCollectionItemSchema.parse`. -/
def DeleteCollectionItemSchema.parse (args : Option JObj) : Except (List ZodIssue) DeleteParams :=
  match args with
  | none => .error [⟨[], "Required"⟩]
  | some o =>
    match zcombine (checkReqString o "collectionId") (checkReqString o "itemId") with
    | .error es => .error es
    | .ok (cid, iid) => .ok ⟨cid, iid⟩

/-- The inline `z.object({collectionId, itemIds})` of the publish case. -/
def PublishSchema.parse (args : Option JObj) : Except (List ZodIssue) PublishParams :=
  match args with
  | none => .error [⟨[], "Required"⟩]
  | some o =>
    match zcombine (checkReqString o "collectionId") (checkStringArray o "itemIds") with
    | .error es => .error es
    | .ok (cid, ids) => .ok ⟨cid, ids⟩

/-- An outbound HTTP request as `makeRequest` hands it to `fetch`:
the body is the value passed to `JSON.stringify` (the adapter never
sends a non-JSON body). -/
structure HttpRequest where
  url : String
  method : String
  headers : JsAList String
  body : Option Json

/-- An HTTP response: its status, its body read as text
(`response.text()`) and its body parsed as JSON (`response.json()`). -/
structure HttpResponse where
  status : Nat
  bodyText : String
  jsonBody : Json

/-- The options object a `WebflowAPI` method passes to `makeRequest`
(`fetch` defaults the method to GET when absent; no call site ever
passes headers). -/
structure FetchOptions where
  method : String := "GET"
  headers : JsAList String := []
  body : Option Json := none

/-- `https://api.webflow.com/v2`. -/
def WEBFLOW_API_BASE : String := "https://api.webflow.com/v2"

/-- The `WebflowAPI` class: its only state is the bearer token. -/
structure WebflowAPI where
  apiToken : String

/-- The two default headers set in the constructor. -/
def WebflowAPI.headers (api : WebflowAPI) : JsAList String :=
  [("Authorization", "Bearer " ++ api.apiToken),
   ("Content-Type", "application/json")]

/-- The request `makeRequest` builds: base url + endpoint, and the
spread `{...this.headers, ...options.headers}`. -/
def WebflowAPI.buildRequest (api : WebflowAPI) (endpoint : String)
    (options : FetchOptions) : HttpRequest :=
  { url := WEBFLOW_API_BASE ++ endpoint
    method := options.method
    headers := spreadA api.headers options.headers
    body := options.body }

/-- `makeRequest`, given the network as a function from requests to
responses: `response.ok` is status 200..299; a non-ok response is read
as text and becomes the thrown error's message; an ok response is
parsed as JSON and returned. -/
def runRequest (world : HttpRequest → HttpResponse) (req : HttpRequest) :
    Except String Json :=
  let response := world req
  if 200 ≤ response.status ∧ response.status ≤ 299 then
    .ok response.jsonBody
  else
    .error ("Webflow API error (" ++ toString response.status ++ "): " ++ response.bodyText)

/-- `getSites()`. -/
def WebflowAPI.getSites (api : WebflowAPI) : HttpRequest :=
  api.buildRequest "/sites" {}

/-- `getSite(siteId)`. -/
def WebflowAPI.getSite (api : WebflowAPI) (siteId : String) : HttpRequest :=
  api.buildRequest ("/sites/" ++ siteId) {}

/-- `getCollections(siteId)`. -/
def WebflowAPI.getCollections (api : WebflowAPI) (siteId : String) : HttpRequest :=
  api.buildRequest ("/sites/" ++ siteId ++ "/collections") {}

/-- `getCollectionItems(collectionId, limit, offset)`. -/
def WebflowAPI.getCollectionItems (api : WebflowAPI) (collectionId : String)
    (limit offset : Int) : HttpRequest :=
  api.buildRequest
    ("/collections/" ++ collectionId ++ "/items?limit=" ++ toString limit
      ++ "&offset=" ++ toString offset) {}

/-- `createCollectionItem(collectionId, data)`. -/
def WebflowAPI.createCollectionItem (api : WebflowAPI) (collectionId : String)
    (data : Json) : HttpRequest :=
  api.buildRequest ("/collections/" ++ collectionId ++ "/items")
    { method := "POST", body := some data }

/-- `updateCollectionItem(collectionId, itemId, data)`. -/
def WebflowAPI.updateCollectionItem (api : WebflowAPI) (collectionId itemId : String)
    (data : Json) : HttpRequest :=
  api.buildRequest ("/collections/" ++ collectionId ++ "/items/" ++ itemId)
    { method := "PATCH", body := some data }

/-- `deleteCollectionItem(collectionId, itemId)`. -/
def WebflowAPI.deleteCollectionItem (api : WebflowAPI) (collectionId itemId : String) :
    HttpRequest :=
  api.buildRequest ("/collections/" ++ collectionId ++ "/items/" ++ itemId)
    { method := "DELETE" }

/-- `publishCollectionItems(collectionId, itemIds)`. -/
def WebflowAPI.publishCollectionItems (api : WebflowAPI) (collectionId : String)
    (itemIds : List String) : HttpRequest :=
  api.buildRequest ("/collections/" ++ collectionId ++ "/items/publish")
    { method := "POST", body := some (.obj [("itemIds", .arr (itemIds.map Json.str))]) }

/-- JavaScript truthiness of an optional string: `undefined` and the
empty string are falsy. -/
def truthyOptStr : Option String → Bool
  | none => false
  | some s => !(s = "")

/-- The `fieldData` object of `create_collection_item`'s `itemData`:
`{name, slug: slug || derived, ...fieldData}` — explicit fields first,
caller `fieldData` spread over them. -/
def createFieldData (p : CreateParams) : JObj :=
  spreadA
    [("name", Json.str p.name),
     ("slug", Json.str (slugOrDerived p.slug p.name))]
    (p.fieldData.getD [])

/-- The full `itemData` payload of the create case. -/
def createItemData (p : CreateParams) : Json :=
  .obj [("fieldData", .obj (createFieldData p)),
        ("isDraft", .bool p.isDraft),
        ("isArchived", .bool p.isArchived)]

/-- The `updateData` object of the update case.  The source mutates an
empty object: if any of `name`/`slug`/`fieldData` is truthy it creates
`updateData.fieldData`, writes `name` and `slug` into it only when
truthy, then merges caller `fieldData` over it; `isDraft`/`isArchived`
are copied whenever they are not `undefined`.  The successive `let`s
model those in-place property writes in program order. -/
def makeUpdateData (p : UpdateParams) : JObj :=
  let updateData : JObj := []
  let updateData :=
    if truthyOptStr p.name || truthyOptStr p.slug || p.fieldData.isSome then
      let fd : JObj := []
      let fd := if truthyOptStr p.name then setKey fd "name" (Json.str (p.name.getD "")) else fd
      let fd := if truthyOptStr p.slug then setKey fd "slug" (Json.str (p.slug.getD "")) else fd
      let fd := if p.fieldData.isSome then spreadA fd (p.fieldData.getD []) else fd
      setKey updateData "fieldData" (Json.obj fd)
    else updateData
  let updateData :=
    if p.isDraft.isSome then setKey updateData "isDraft" (Json.bool (p.isDraft.getD false))
    else updateData
  let updateData :=
    if p.isArchived.isSome then setKey updateData "isArchived" (Json.bool (p.isArchived.getD false))
    else updateData
  updateData

/-- A success content block's text.  `jsonText r` stands for
`JSON.stringify(r, null, 2)`, `prefixed m r` for the human success
message followed by that serialization, `plain` for a literal string
(the delete case, which echoes the item id instead of the response). -/
inductive ContentText where
  | plain : String → ContentText
  | jsonText : Json → ContentText
  | prefixed : String → Json → ContentText

/-- What the try block of the call-tool handler can throw: a zod
validation error, the `McpError` of the default case, or a generic
`Error` (the adapter's HTTP failure). -/
inductive Thrown where
  | zodError : List ZodIssue → Thrown
  | mcpError : Int → String → Thrown
  | genericError : String → Thrown

/-- JSON-RPC code for method-not-found, as in the MCP SDK. -/
def methodNotFoundCode : Int := -32601

/-- JSON-RPC code for invalid params, as in the MCP SDK. -/
def invalidParamsCode : Int := -32602

/-- JSON-RPC code for internal error, as in the MCP SDK. -/
def internalErrorCode : Int := -32603

/-- An `McpError` as surfaced to the transport: its code and message. -/
structure McpErrorOut where
  code : Int
  message : String

/-- The switch of the call-tool handler, inside the try block.  Each
case validates (where the source does), builds the one HTTP request of
the tool, runs it against `world`, and wraps the result; the default
case throws `McpError(MethodNotFound, ...)`. -/
def callToolInner (api : WebflowAPI) (world : HttpRequest → HttpResponse)
    (name : String) (args : Option JObj) : Except Thrown ContentText :=
  if name = "get_sites" then
    match runRequest world api.getSites with
    | .error m => .error (.genericError m)
    | .ok result => .ok (.jsonText result)
  else if name = "get_site" then
    match GetSiteSchema.parse args with
    | .error es => .error (.zodError es)
    | .ok p =>
      match runRequest world (api.getSite p.siteId) with
      | .error m => .error (.genericError m)
      | .ok result => .ok (.jsonText result)
  else if name = "get_collections" then
    match GetCollectionsSchema.parse args with
    | .error es => .error (.zodError es)
    | .ok p =>
      match runRequest world (api.getCollections p.siteId) with
      | .error m => .error (.genericError m)
      | .ok result => .ok (.jsonText result)
  else if name = "get_collection_items" then
    match GetCollectionItemsSchema.parse args with
    | .error es => .error (.zodError es)
    | .ok p =>
      match runRequest world (api.getCollectionItems p.collectionId p.limit p.offset) with
      | .error m => .error (.genericError m)
      | .ok result => .ok (.jsonText result)
  else if name = "create_collection_item" then
    match CreateCollectionItemSchema.parse args with
    | .error es => .error (.zodError es)
    | .ok p =>
      match runRequest world (api.createCollectionItem p.collectionId (createItemData p)) with
      | .error m => .error (.genericError m)
      | .ok result => .ok (.prefixed "✅ Successfully created collection item!\n\n" result)
  else if name = "update_collection_item" then
    match UpdateCollectionItemSchema.parse args with
    | .error es => .error (.zodError es)
    | .ok p =>
      match runRequest world (api.updateCollectionItem p.collectionId p.itemId
          (.obj (makeUpdateData p))) with
      | .error m => .error (.genericError m)
      | .ok result => .ok (.prefixed "✅ Successfully updated collection item!\n\n" result)
  else if name = "delete_collection_item" then
    match DeleteCollectionItemSchema.parse args with
    | .error es => .error (.zodError es)
    | .ok p =>
      match runRequest world (api.deleteCollectionItem p.collectionId p.itemId) with
      | .error m => .error (.genericError m)
      | .ok _ => .ok (.plain ("✅ Successfully deleted collection item " ++ p.itemId))
  else if name = "publish_collection_items" then
    match PublishSchema.parse args with
    | .error es => .error (.zodError es)
    | .ok p =>
      match runRequest world (api.publishCollectionItems p.collectionId p.itemIds) with
      | .error m => .error (.genericError m)
      | .ok result =>
        .ok (.prefixed ("✅ Successfully published " ++ toString p.itemIds.length
          ++ " item(s)!\n\n") result)
  else
    .error (.mcpError methodNotFoundCode ("Unknown tool: " ++ name))

/-- `e.path.join('.') + ': ' + e.message` for one zod issue. -/
def issueText (i : ZodIssue) : String :=
  String.intercalate "." i.path ++ ": " ++ i.message

/-- The catch block's joined validation message:
`error.errors.map(...).join(', ')`. -/
def joinIssues (issues : List ZodIssue) : String :=
  String.intercalate ", " (issues.map issueText)

/-- The catch block.  A `ZodError` becomes an invalid-params `McpError`
with the joined message.  ANY other thrown value — including the
`McpError(MethodNotFound)` thrown by the default case, whose
`instanceof Error` message is `MCP error <code>: <message>` — is
re-wrapped as an internal error `Error executing <name>: <message>`. -/
def handleCallTool (api : WebflowAPI) (world : HttpRequest → HttpResponse)
    (name : String) (args : Option JObj) : Except McpErrorOut ContentText :=
  match callToolInner api world name args with
  | .ok r => .ok r
  | .error (.zodError issues) =>
    .error ⟨invalidParamsCode, "Invalid parameters: " ++ joinIssues issues⟩
  | .error (.mcpError c m) =>
    .error ⟨internalErrorCode,
      "Error executing " ++ name ++ ": MCP error " ++ toString c ++ ": " ++ m⟩
  | .error (.genericError m) =>
    .error ⟨internalErrorCode, "Error executing " ++ name ++ ": " ++ m⟩

/-- A tool descriptor of the catalog: name, description, and the
property names and required list of its JSON-Schema input shape. -/
structure ToolDescriptor where
  name : String
  description : String
  propNames : List String
  required : List String

/-- The `tools` array served to the "list tools" query, in source
order. -/
def tools : List ToolDescriptor :=
  [⟨"get_sites",
    "Retrieve a list of all Webflow sites accessible to the authenticated user",
    [], []⟩,
   ⟨"get_site",
    "Retrieve detailed information about a specific Webflow site by ID",
    ["siteId"], ["siteId"]⟩,
   ⟨"get_collections",
    "Retrieve a list of all CMS collections for a specific Webflow site",
    ["siteId"], ["siteId"]⟩,
   ⟨"get_collection_items",
    "Retrieve items from a specific collection",
    ["collectionId", "limit", "offset"], ["collectionId"]⟩,
   ⟨"create_collection_item",
    "Create a new item in a collection",
    ["collectionId", "name", "slug", "fieldData", "isDraft", "isArchived"],
    ["collectionId", "name"]⟩,
   ⟨"update_collection_item",
    "Update an existing collection item",
    ["collectionId", "itemId", "name", "slug", "fieldData", "isDraft", "isArchived"],
    ["collectionId", "itemId"]⟩,
   ⟨"delete_collection_item",
    "Delete a collection item",
    ["collectionId", "itemId"], ["collectionId", "itemId"]⟩,
   ⟨"publish_collection_items",
    "Publish one or more collection items",
    ["collectionId", "itemIds"], ["collectionId", "itemIds"]⟩]

/-- The case labels of the call-tool switch, in source order. -/
def dispatchLabels : List String :=
  ["get_sites", "get_site", "get_collections", "get_collection_items",
   "create_collection_item", "update_collection_item",
   "delete_collection_item", "publish_collection_items"]

/-- Substring test on character lists (is `pat` a prefix of `s`?). -/
def isPrefixOfB : List Char → List Char → Bool
  | [], _ => true
  | _ :: _, [] => false
  | a :: as, b :: bs => a = b && isPrefixOfB as bs

/-- Substring test on character lists (does `pat` occur in `s`?). -/
def containsSubList (pat : List Char) : List Char → Bool
  | [] => isPrefixOfB pat []
  | c :: rest => isPrefixOfB pat (c :: rest) || containsSubList pat rest

/-- Does string `s` contain `pat` as a substring? -/
def strContains (s pat : String) : Bool :=
  containsSubList pat.data s.data

theorem getKey_setKey_same {α : Type} (o : JsAList α) (k : String) (v : α) :
    getKey (setKey o k v) k = some v := by
  induction o with
  | nil => simp [setKey, getKey]
  | cons kv rest ih =>
    obtain ⟨k', v'⟩ := kv
    by_cases h : k' = k
    · simp [setKey, getKey, h]
    · simp [setKey, getKey, h, ih]

theorem getKey_setKey_ne {α : Type} (o : JsAList α) {k k' : String} (v : α)
    (h : k ≠ k') : getKey (setKey o k v) k' = getKey o k' := by
  induction o with
  | nil => simp [setKey, getKey, h]
  | cons kv rest ih =>
    obtain ⟨k1, v1⟩ := kv
    by_cases h1 : k1 = k
    · subst h1
      simp [setKey, getKey, h]
    · simp [setKey, getKey, h1, ih]

theorem getKey_eq_none_of_not_mem {α : Type} {o : JsAList α} {k : String}
    (h : k ∉ o.map Prod.fst) : getKey o k = none := by
  induction o with
  | nil => simp [getKey]
  | cons kv rest ih =>
    obtain ⟨k1, v1⟩ := kv
    simp only [List.map_cons, List.mem_cons] at h
    push_neg at h
    have hne : k1 ≠ k := fun e => h.1 e.symm
    simp [getKey, hne, ih h.2]

theorem getKey_spreadA_of_none {α : Type} (src : JsAList α) (k : String)
    (h : getKey src k = none) :
    ∀ base, getKey (spreadA base src) k = getKey base k := by
  induction src with
  | nil => intro base; simp [spreadA]
  | cons kv rest ih =>
    intro base
    obtain ⟨k1, v1⟩ := kv
    by_cases h1 : k1 = k
    · simp [getKey, h1] at h
    · simp only [getKey, if_neg h1] at h
      have : spreadA base ((k1, v1) :: rest) = spreadA (setKey base k1 v1) rest := rfl
      rw [this, ih h, getKey_setKey_ne _ _ h1]

theorem getKey_spreadA_of_some {α : Type} (src : JsAList α) (k : String) (v : α)
    (hnd : (src.map Prod.fst).Nodup) (h : getKey src k = some v) :
    ∀ base, getKey (spreadA base src) k = some v := by
  induction src with
  | nil => simp [getKey] at h
  | cons kv rest ih =>
    intro base
    obtain ⟨k1, v1⟩ := kv
    have hstep : spreadA base ((k1, v1) :: rest) = spreadA (setKey base k1 v1) rest := rfl
    simp only [List.map_cons, List.nodup_cons] at hnd
    by_cases h1 : k1 = k
    · subst h1
      simp [getKey] at h
      subst h
      have hrest : getKey rest k1 = none := getKey_eq_none_of_not_mem hnd.1
      rw [hstep, getKey_spreadA_of_none rest k1 hrest, getKey_setKey_same]
    · simp only [getKey, if_neg h1] at h
      rw [hstep, ih hnd.2 h]

/-- Claim C1 counterexample: for name="Hello World!" with no slug,
`create_collection_item` does NOT build fieldData.slug = "hello-world".
The trailing "!" is a non-alphanumeric run of its own, so the regex
replacement leaves a trailing hyphen. -/
theorem create_slug_hello_world_cex :
    CreateCollectionItemSchema.parse
        (some [("collectionId", Json.str "c1"), ("name", Json.str "Hello World!")])
      = .ok ⟨"c1", "Hello World!", none, none, false, false⟩
    ∧ ¬ (getKey (createFieldData ⟨"c1", "Hello World!", none, none, false, false⟩) "slug"
          = some (Json.str "hello-world")) := by
  constructor
  · rfl
  · intro h
    rw [show getKey (createFieldData ⟨"c1", "Hello World!", none, none, false, false⟩) "slug"
          = some (Json.str "hello-world-") from rfl] at h
    injection h with h1
    injection h1 with h2
    exact absurd h2 (by decide)

/-- Claim C1 (amended): for name="Hello World!" with no slug, the
payload's fieldData.slug is "hello-world-" — lowercased, with each run
of non-alphanumeric characters collapsed to a single hyphen; the final
"!" therefore leaves a trailing hyphen, since the code does no
trimming. -/
theorem create_slug_hello_world_trailing :
    slugify "Hello World!" = "hello-world-"
    ∧ CreateCollectionItemSchema.parse
        (some [("collectionId", Json.str "c1"), ("name", Json.str "Hello World!")])
        = .ok ⟨"c1", "Hello World!", none, none, false, false⟩
    ∧ getKey (createFieldData ⟨"c1", "Hello World!", none, none, false, false⟩) "slug"
        = some (Json.str "hello-world-") :=
  ⟨rfl, rfl, rfl⟩

/-- Claim C2 (code bug in the source): the default case of the switch
throws `McpError(ErrorCode.MethodNotFound, ...)`, but it throws inside
the try block and the catch block re-wraps every thrown value that is
not a `ZodError` — the just-thrown `McpError` included — as an
internal error.  So a "call tool" request with an unknown tool name is
surfaced with the internal-error code, the method-not-found code
appearing only inside the message text. -/
theorem unknown_tool_rewrapped_as_internal :
    ∀ (api : WebflowAPI) (world : HttpRequest → HttpResponse) (args : Option JObj),
      callToolInner api world "definitely_not_a_tool" args
        = .error (.mcpError methodNotFoundCode "Unknown tool: definitely_not_a_tool")
      ∧ handleCallTool api world "definitely_not_a_tool" args
        = .error ⟨internalErrorCode,
            "Error executing definitely_not_a_tool: MCP error -32601: Unknown tool: definitely_not_a_tool"⟩
      ∧ internalErrorCode ≠ methodNotFoundCode := by
  intro api world args
  exact ⟨rfl, rfl, by decide⟩

/-- Claim C3: the create payload's fieldData writes the explicit `name`
and auto/explicit `slug` first and then shallow-spreads the caller's
`fieldData` over them, so the caller's value wins for any key the
caller supplies (unique keys, as in any JavaScript object), and keys
the caller does not supply keep the explicit values; in particular
`create_collection_item({collectionId:"c1", name:"Foo",
fieldData:{slug:"custom"}})` yields fieldData.slug == "custom". -/
theorem create_fieldData_last_write_wins :
    (∀ (p : CreateParams) (fd : JObj) (v : Json) (k : String),
        p.fieldData = some fd →
        (fd.map Prod.fst).Nodup →
        getKey fd k = some v →
        getKey (createFieldData p) k = some v)
    ∧ (∀ (p : CreateParams) (k : String),
        getKey (p.fieldData.getD []) k = none →
        getKey (createFieldData p) k
          = getKey [("name", Json.str p.name),
                    ("slug", Json.str (slugOrDerived p.slug p.name))] k)
    ∧ CreateCollectionItemSchema.parse
        (some [("collectionId", Json.str "c1"), ("name", Json.str "Foo"),
               ("fieldData", Json.obj [("slug", Json.str "custom")])])
        = .ok ⟨"c1", "Foo", none, some [("slug", Json.str "custom")], false, false⟩
    ∧ getKey (createFieldData
          ⟨"c1", "Foo", none, some [("slug", Json.str "custom")], false, false⟩) "slug"
        = some (Json.str "custom") := by
  refine ⟨?_, ?_, rfl, rfl⟩
  · intro p fd v k hfd hnd hget
    unfold createFieldData
    rw [hfd]
    exact getKey_spreadA_of_some fd k v hnd hget _
  · intro p k hnone
    exact getKey_spreadA_of_none _ k hnone _

/-- Witness for the universally quantified parts of
`create_fieldData_last_write_wins` at the claim's concrete input. -/
theorem create_fieldData_last_write_wins_witness :
    getKey (createFieldData
        ⟨"c1", "Foo", none, some [("slug", Json.str "custom")], false, false⟩) "slug"
      = some (Json.str "custom")
    ∧ getKey (createFieldData
        ⟨"c1", "Foo", none, some [("slug", Json.str "custom")], false, false⟩) "name"
      = getKey [("name", Json.str "Foo"),
                ("slug", Json.str (slugOrDerived none "Foo"))] "name" :=
  ⟨create_fieldData_last_write_wins.1
      ⟨"c1", "Foo", none, some [("slug", Json.str "custom")], false, false⟩
      [("slug", Json.str "custom")] (Json.str "custom") "slug" rfl (by simp) rfl,
   create_fieldData_last_write_wins.2.1
      ⟨"c1", "Foo", none, some [("slug", Json.str "custom")], false, false⟩
      "name" rfl⟩

/-- Claim C4: an `update_collection_item` call supplying only
collectionId and itemId validates to parameters with every optional
field absent, and the PATCH body it sends is the empty object — no
`fieldData`, `isDraft` or `isArchived` key; in general, an absent
optional field is omitted from the update body, never defaulted. -/
theorem update_omits_absent_fields :
    (∀ p : UpdateParams,
        (p.name = none → p.slug = none → p.fieldData = none →
          getKey (makeUpdateData p) "fieldData" = none)
        ∧ (p.isDraft = none → getKey (makeUpdateData p) "isDraft" = none)
        ∧ (p.isArchived = none → getKey (makeUpdateData p) "isArchived" = none))
    ∧ UpdateCollectionItemSchema.parse
        (some [("collectionId", Json.str "c1"), ("itemId", Json.str "i1")])
        = .ok ⟨"c1", "i1", none, none, none, none, none⟩
    ∧ makeUpdateData ⟨"c1", "i1", none, none, none, none, none⟩ = []
    ∧ (∀ api : WebflowAPI,
        (api.updateCollectionItem "c1" "i1"
            (Json.obj (makeUpdateData ⟨"c1", "i1", none, none, none, none, none⟩))).method
          = "PATCH"
        ∧ (api.updateCollectionItem "c1" "i1"
            (Json.obj (makeUpdateData ⟨"c1", "i1", none, none, none, none, none⟩))).body
          = some (Json.obj [])) := by
  refine ⟨?_, rfl, rfl, fun api => ⟨rfl, rfl⟩⟩
  intro p
  obtain ⟨cid, iid, n, s, fd, d, a⟩ := p
  refine ⟨?_, ?_, ?_⟩
  · rintro rfl rfl rfl
    cases d <;> cases a <;> simp [makeUpdateData, truthyOptStr, setKey, getKey]
  · rintro rfl
    by_cases hc : truthyOptStr n || truthyOptStr s || fd.isSome <;>
      cases a <;>
        simp [makeUpdateData, hc, setKey, getKey]
  · rintro rfl
    by_cases hc : truthyOptStr n || truthyOptStr s || fd.isSome <;>
      cases d <;>
        simp [makeUpdateData, hc, setKey, getKey]

/-- Witness for the universally quantified part of
`update_omits_absent_fields` at the claim's concrete input. -/
theorem update_omits_absent_fields_witness :
    getKey (makeUpdateData ⟨"c1", "i1", none, none, none, none, none⟩) "fieldData" = none
    ∧ getKey (makeUpdateData ⟨"c1", "i1", none, none, none, none, none⟩) "isDraft" = none
    ∧ getKey (makeUpdateData ⟨"c1", "i1", none, none, none, none, none⟩) "isArchived" = none :=
  ⟨(update_omits_absent_fields.1 ⟨"c1", "i1", none, none, none, none, none⟩).1 rfl rfl rfl,
   (update_omits_absent_fields.1 ⟨"c1", "i1", none, none, none, none, none⟩).2.1 rfl,
   (update_omits_absent_fields.1 ⟨"c1", "i1", none, none, none, none, none⟩).2.2 rfl⟩

/-- Claim C5: when `limit` and `offset` are omitted from a
`get_collection_items` call, validation fills the defaults limit=10 and
offset=0, the request sent is the one for limit 10 and offset 0, and on
collectionId "c1" its GET URL carries the query string
`limit=10&offset=0`. -/
theorem get_items_defaults :
    (∀ o : JObj, getKey o "limit" = none → getKey o "offset" = none →
      ∀ p : ItemsParams, GetCollectionItemsSchema.parse (some o) = .ok p →
        p.limit = 10 ∧ p.offset = 0
        ∧ ∀ api : WebflowAPI,
            api.getCollectionItems p.collectionId p.limit p.offset
              = api.getCollectionItems p.collectionId 10 0)
    ∧ GetCollectionItemsSchema.parse (some [("collectionId", Json.str "c1")])
        = .ok ⟨"c1", 10, 0⟩
    ∧ ∀ api : WebflowAPI,
        (api.getCollectionItems "c1" 10 0).url
          = "https://api.webflow.com/v2/collections/c1/items?limit=10&offset=0"
        ∧ (api.getCollectionItems "c1" 10 0).method = "GET" := by
  refine ⟨?_, rfl, fun api => ⟨rfl, rfl⟩⟩
  intro o hl ho p hp
  have hlim : checkNumDefault o "limit" 10 = .ok 10 := by
    unfold checkNumDefault
    rw [hl]
  have hoff : checkNumDefault o "offset" 0 = .ok 0 := by
    unfold checkNumDefault
    rw [ho]
  simp only [GetCollectionItemsSchema.parse] at hp
  rw [hlim, hoff] at hp
  cases hc : checkReqString o "collectionId" with
  | error es => rw [hc] at hp; simp [zcombine] at hp
  | ok cid =>
    rw [hc] at hp
    simp only [zcombine] at hp
    cases hp
    exact ⟨rfl, rfl, fun api => rfl⟩

/-- Witness for the universally quantified part of `get_items_defaults`
at the claim's concrete input. -/
theorem get_items_defaults_witness :
    (⟨"c1", 10, 0⟩ : ItemsParams).limit = 10
    ∧ (⟨"c1", 10, 0⟩ : ItemsParams).offset = 0
    ∧ ∀ api : WebflowAPI,
        api.getCollectionItems (⟨"c1", 10, 0⟩ : ItemsParams).collectionId
            (⟨"c1", 10, 0⟩ : ItemsParams).limit (⟨"c1", 10, 0⟩ : ItemsParams).offset
          = api.getCollectionItems (⟨"c1", 10, 0⟩ : ItemsParams).collectionId 10 0 :=
  get_items_defaults.1 [("collectionId", Json.str "c1")] rfl rfl ⟨"c1", 10, 0⟩ rfl

/-- Claim C6: a non-success HTTP status (outside 200..299) makes the
adapter fail with the response body read as text, in an error message
carrying the numeric status and the body verbatim; the handler's catch
block surfaces any such adapter error as an internal error carrying
the tool name and that message.  In particular an HTTP 404 response
with body "Not Found" on `get_sites` yields an internal error whose
message contains both "404" and "Not Found". -/
theorem http_error_text_surfaced :
    (∀ (world : HttpRequest → HttpResponse) (req : HttpRequest),
        ¬ (200 ≤ (world req).status ∧ (world req).status ≤ 299) →
        runRequest world req
          = .error ("Webflow API error (" ++ toString (world req).status ++ "): "
              ++ (world req).bodyText))
    ∧ (∀ (api : WebflowAPI) (world : HttpRequest → HttpResponse)
          (name : String) (args : Option JObj) (m : String),
        callToolInner api world name args = .error (.genericError m) →
        handleCallTool api world name args
          = .error ⟨internalErrorCode, "Error executing " ++ name ++ ": " ++ m⟩)
    ∧ (∀ api : WebflowAPI,
        handleCallTool api (fun _ => ⟨404, "Not Found", Json.null⟩) "get_sites" none
          = .error ⟨internalErrorCode,
              "Error executing get_sites: Webflow API error (404): Not Found"⟩)
    ∧ strContains "Error executing get_sites: Webflow API error (404): Not Found" "404" = true
    ∧ strContains "Error executing get_sites: Webflow API error (404): Not Found" "Not Found" = true := by
  refine ⟨?_, ?_, ?_, rfl, rfl⟩
  · intro world req h
    unfold runRequest
    rw [if_neg h]
  · intro api world name args m h
    unfold handleCallTool
    rw [h]
  · intro api
    unfold handleCallTool callToolInner runRequest
    simp
    rfl

/-- Witness for the universally quantified parts of
`http_error_text_surfaced` at a concrete 404 world. -/
theorem http_error_text_surfaced_witness :
    runRequest (fun _ => ⟨404, "Not Found", Json.null⟩) ((⟨"tok"⟩ : WebflowAPI).getSites)
      = .error ("Webflow API error (" ++ toString
          ((fun (_ : HttpRequest) => (⟨404, "Not Found", Json.null⟩ : HttpResponse))
            ((⟨"tok"⟩ : WebflowAPI).getSites)).status ++ "): "
          ++ ((fun (_ : HttpRequest) => (⟨404, "Not Found", Json.null⟩ : HttpResponse))
            ((⟨"tok"⟩ : WebflowAPI).getSites)).bodyText)
    ∧ handleCallTool ⟨"tok"⟩ (fun _ => ⟨404, "Not Found", Json.null⟩) "get_sites" none
      = .error ⟨internalErrorCode,
          "Error executing " ++ "get_sites" ++ ": "
            ++ "Webflow API error (404): Not Found"⟩ :=
  ⟨http_error_text_surfaced.1 (fun _ => ⟨404, "Not Found", Json.null⟩)
      ((⟨"tok"⟩ : WebflowAPI).getSites) (by decide),
   http_error_text_surfaced.2.1 ⟨"tok"⟩ (fun _ => ⟨404, "Not Found", Json.null⟩)
      "get_sites" none "Webflow API error (404): Not Found" rfl⟩

/-- Claim C7: when argument validation fails, the handler surfaces an
invalid-params error whose message joins, for every offending field,
its dotted path and zod's constraint message, prefixed by
"Invalid parameters: "; in particular `get_site` called with empty
arguments yields an invalid-params error whose message contains
"siteId". -/
theorem validation_error_message :
    (∀ (api : WebflowAPI) (world : HttpRequest → HttpResponse)
        (name : String) (args : Option JObj) (issues : List ZodIssue),
      callToolInner api world name args = .error (.zodError issues) →
      handleCallTool api world name args
        = .error ⟨invalidParamsCode,
            "Invalid parameters: "
              ++ String.intercalate ", "
                  (issues.map (fun i => String.intercalate "." i.path ++ ": " ++ i.message))⟩)
    ∧ (∀ (api : WebflowAPI) (world : HttpRequest → HttpResponse),
        handleCallTool api world "get_site" (some [])
          = .error ⟨invalidParamsCode, "Invalid parameters: siteId: Required"⟩)
    ∧ strContains "Invalid parameters: siteId: Required" "siteId" = true := by
  refine ⟨?_, fun api world => rfl, rfl⟩
  intro api world name args issues h
  unfold handleCallTool
  rw [h]
  rfl

/-- Witness for the universally quantified part of
`validation_error_message` at the claim's concrete input. -/
theorem validation_error_message_witness :
    handleCallTool ⟨"tok"⟩ (fun _ => ⟨200, "", Json.null⟩) "get_site" (some [])
      = .error ⟨invalidParamsCode,
          "Invalid parameters: "
            ++ String.intercalate ", "
                ([(⟨["siteId"], "Required"⟩ : ZodIssue)].map
                  (fun i => String.intercalate "." i.path ++ ": " ++ i.message))⟩ :=
  validation_error_message.1 ⟨"tok"⟩ (fun _ => ⟨200, "", Json.null⟩)
    "get_site" (some []) [⟨["siteId"], "Required"⟩] rfl

/-- Claim C8: the names in the tool catalog served to "list tools" are
exactly the case labels of the call-tool dispatch switch, eight of
them: the switch reaches its method-not-found default case precisely
for the names outside that list. -/
theorem catalog_matches_dispatch :
    tools.map ToolDescriptor.name = dispatchLabels
    ∧ dispatchLabels.length = 8
    ∧ ∀ (api : WebflowAPI) (world : HttpRequest → HttpResponse)
        (name : String) (args : Option JObj),
        (callToolInner api world name args
           = .error (.mcpError methodNotFoundCode ("Unknown tool: " ++ name)))
        ↔ name ∉ dispatchLabels := by
  refine ⟨rfl, rfl, ?_⟩
  intro api world name args
  constructor
  · intro heq hmem
    simp only [dispatchLabels, List.mem_cons, List.not_mem_nil, or_false] at hmem
    rcases hmem with rfl | rfl | rfl | rfl | rfl | rfl | rfl | rfl <;>
      simp only [callToolInner] at heq <;>
      simp at heq <;>
      (try split at heq) <;>
      (try split at heq) <;>
      simp_all
  · intro hmem
    simp only [dispatchLabels, List.mem_cons, List.not_mem_nil, or_false, not_or] at hmem
    obtain ⟨h1, h2, h3, h4, h5, h6, h7, h8⟩ := hmem
    simp [callToolInner, h1, h2, h3, h4, h5, h6, h7, h8]

/-- Claim C9: every request any of the eight adapter operations builds
carries exactly the two constructor headers — the bearer Authorization
header and the JSON Content-Type header — since no call site passes
extra headers to `makeRequest`. -/
theorem headers_invariant :
    ∀ (api : WebflowAPI) (siteId collectionId itemId : String)
      (limit offset : Int) (data : Json) (itemIds : List String),
      api.getSites.headers = api.headers
      ∧ (api.getSite siteId).headers = api.headers
      ∧ (api.getCollections siteId).headers = api.headers
      ∧ (api.getCollectionItems collectionId limit offset).headers = api.headers
      ∧ (api.createCollectionItem collectionId data).headers = api.headers
      ∧ (api.updateCollectionItem collectionId itemId data).headers = api.headers
      ∧ (api.deleteCollectionItem collectionId itemId).headers = api.headers
      ∧ (api.publishCollectionItems collectionId itemIds).headers = api.headers
      ∧ api.headers = [("Authorization", "Bearer " ++ api.apiToken),
                       ("Content-Type", "application/json")] :=
  fun api siteId collectionId itemId limit offset data itemIds =>
    ⟨rfl, rfl, rfl, rfl, rfl, rfl, rfl, rfl, rfl⟩

/-- Claim C10: in the update case, presence of `name`, `slug` and
`fieldData` is decided by JavaScript truthiness — an empty-string
`name` or `slug` acts exactly like an omitted one, and when all three
are falsy the body has no `fieldData` key — while `isDraft` and
`isArchived` are included whenever they are defined, `false`
included. -/
theorem update_truthiness :
    ∀ (cid iid : String) (n s : Option String) (fd : Option JObj) (d a : Option Bool),
      makeUpdateData ⟨cid, iid, some "", s, fd, d, a⟩
        = makeUpdateData ⟨cid, iid, none, s, fd, d, a⟩
      ∧ makeUpdateData ⟨cid, iid, n, some "", fd, d, a⟩
        = makeUpdateData ⟨cid, iid, n, none, fd, d, a⟩
      ∧ getKey (makeUpdateData ⟨cid, iid, none, none, none, d, a⟩) "fieldData" = none
      ∧ (∀ b : Bool,
          getKey (makeUpdateData ⟨cid, iid, n, s, fd, some b, a⟩) "isDraft"
            = some (Json.bool b))
      ∧ (∀ b : Bool,
          getKey (makeUpdateData ⟨cid, iid, n, s, fd, d, some b⟩) "isArchived"
            = some (Json.bool b)) := by
  intro cid iid n s fd d a
  refine ⟨?_, ?_, ?_, ?_, ?_⟩
  · simp [makeUpdateData, truthyOptStr]
  · simp [makeUpdateData, truthyOptStr]
  · cases d <;> cases a <;> simp [makeUpdateData, truthyOptStr, setKey, getKey]
  · intro b
    by_cases hc : truthyOptStr n || truthyOptStr s || fd.isSome <;>
      cases a <;>
        simp [makeUpdateData, hc, setKey, getKey]
  · intro b
    by_cases hc : truthyOptStr n || truthyOptStr s || fd.isSome <;>
      cases d <;>
        simp [makeUpdateData, hc, setKey, getKey]
